import Mathlib

/-!
Shallow embedding of the payment-reconciliation surface of the
hello-happy-tune repository:

* `supabase/functions/paystack-callback/index.ts` — the Payment Callback
  Handler (webhook): signature check, `charge.success` crediting,
  `charge.failed` message parsing and recording;
* the `manual-credit-payment` edge function — the Manual Credit Function
  (repair path) that re-credits a transaction from its stored amount;
* `src/hooks/useStuckPaymentReconciliation.tsx` — the Stuck-Payment
  Reconciler's database query for stale pending transactions.

Modelling conventions:

* The hosted database is a `DB` value (lists of rows); each supabase call
  becomes an explicit state transformation.  `.select(...).single()` is
  `selectSingle`: it yields a row exactly when one row matches, and an
  error (`none`) otherwise, matching PostgREST semantics.
* JavaScript numbers holding money amounts are modelled as exact rationals
  (`ℚ`); `Number.prototype.toFixed(2)` is modelled as exact round-half-up
  to cents (`toFixed2`).
* Fallible external operations that the source code only observes through
  returned error objects (wallet insert / wallet update) are driven by a
  `Faults` record: `some msg` means the database reported an error with
  that message, `none` means the operation succeeded.  Operations whose
  errors the code merely logs keep executing; operations whose errors the
  code `throw`s abort into the `catch` branch, exactly as in the source.
* HMAC-SHA512 (`createHmac(...).digest('hex')`) and `JSON.parse` are
  external library calls; the handler is parametric over them
  (`hmac : String → String → String`, `parse : String → Option CallbackEvent`).
  A `parse` result of `none` models a body on which `JSON.parse` (or the
  destructuring of its result) throws.
-/

namespace HelloHappyTune

/-- PostgREST `.select(...).single()`: returns the row when exactly one row
matches the filter, and an error (modelled `none`, covering both "no rows",
code PGRST116, and "more than one row") otherwise. -/
def selectSingle {α : Type} (p : α → Bool) (l : List α) : Option α :=
  match l.filter p with
  | [x] => some x
  | _ => none

/-- Characters matched by the JavaScript regex class `\s` (the ones relevant
here: space, tab, newline, carriage return, vertical tab, form feed,
no-break space). -/
def jsSpace (c : Char) : Bool :=
  c == ' ' || c == '\t' || c == '\n' || c == '\x0d' || c == '\x0b' || c == '\x0c' || c == ' '

/-- Case-insensitive character equality, as under the regex `i` flag. -/
def icEq (a b : Char) : Bool := a.toLower == b.toLower

/-- `icLeads pat s` : `pat` matches the start of `s` case-insensitively. -/
def icLeads : List Char → List Char → Bool
  | [], _ => true
  | _ :: _, [] => false
  | a :: as, b :: bs => icEq a b && icLeads as bs

/-- Character class `[0-9,.]` of the balance-capturing group. -/
def balChar (c : Char) : Bool := c.isDigit || c == ',' || c == '.'

/-- Regex alternative `Ksh` followed directly by the capture `([0-9,.]+)`. -/
def altKsh (rest : List Char) : Option (List Char) :=
  if icLeads ['k', 's', 'h'] rest then
    let cap := (rest.drop 3).takeWhile balChar
    if cap.isEmpty then none else some cap
  else none

/-- Regex alternative `KES` followed directly by the capture `([0-9,.]+)`. -/
def altKES (rest : List Char) : Option (List Char) :=
  if icLeads ['k', 'e', 's'] rest then
    let cap := (rest.drop 3).takeWhile balChar
    if cap.isEmpty then none else some cap
  else none

/-- Regex alternative `Ksh\s+` followed by the capture `([0-9,.]+)`. -/
def altKshSp (rest : List Char) : Option (List Char) :=
  if icLeads ['k', 's', 'h'] rest then
    let r := rest.drop 3
    let sp := r.takeWhile jsSpace
    let cap := (r.dropWhile jsSpace).takeWhile balChar
    if sp.isEmpty || cap.isEmpty then none else some cap
  else none

/-- One attempt of the regex `/balance is\s+(?:Ksh|KES|Ksh\s+)([0-9,.]+)/i`
at a fixed starting position: literal `balance is`, one-or-more whitespace,
then the three alternatives in source order (backtracking order of the JS
engine), returning the text captured by `([0-9,.]+)`. -/
def tryMatchAt (s : List Char) : Option (List Char) :=
  if icLeads "balance is".toList s then
    let rest := s.drop 10
    let sp := rest.takeWhile jsSpace
    let rest2 := rest.dropWhile jsSpace
    if sp.isEmpty then none
    else
      match altKsh rest2 with
      | some cap => some cap
      | none =>
        match altKES rest2 with
        | some cap => some cap
        | none => altKshSp rest2
  else none

/-- `String.prototype.match` with the balance regex: try every start
position left to right, return the first capture. -/
def scanBalance : List Char → Option (List Char)
  | [] => none
  | c :: cs =>
    match tryMatchAt (c :: cs) with
    | some cap => some cap
    | none => scanBalance cs

/-- Decimal digits to a natural number (the digits are already validated). -/
def digitsToNat (l : List Char) : Nat :=
  l.foldl (fun acc c => acc * 10 + (c.toNat - 48)) 0

/-- `parseFloat` restricted to the inputs reachable here (strings over
`[0-9.]` after commas are stripped): an integer part, an optional dot and
fractional part, anything after a second dot ignored; `none` models `NaN`
(no leading numeric prefix at all, e.g. `"."` or `""`). -/
def jsParseFloat (l : List Char) : Option ℚ :=
  let intPart := l.takeWhile Char.isDigit
  let rest := l.dropWhile Char.isDigit
  match rest with
  | '.' :: rest2 =>
    let fracPart := rest2.takeWhile Char.isDigit
    if intPart.isEmpty && fracPart.isEmpty then none
    else some ((digitsToNat intPart : ℚ) + (digitsToNat fracPart : ℚ) / (10 ^ fracPart.length))
  | _ => if intPart.isEmpty then none else some (digitsToNat intPart : ℚ)

/-- Low two decimal digits, zero-padded. -/
def twoDigitStr (n : Nat) : String :=
  (if n % 100 < 10 then "0" else "") ++ toString (n % 100)

/-- Render a number of cents as a decimal string with two places. -/
def centsToDecimalString (n : Nat) : String :=
  toString (n / 100) ++ "." ++ twoDigitStr n

/-- `Number.prototype.toFixed(2)` on the exact rational model of the JS
number: round half up to cents and print with two decimal places. -/
def toFixed2 (q : ℚ) : String :=
  let cents : Int := ⌊q * 100 + 1 / 2⌋
  if cents < 0 then "-" ++ centsToDecimalString (-cents).toNat
  else centsToDecimalString cents.toNat

/-- Payload fields destructured from the webhook event's `data` object
(shared by `charge.success` and `charge.failed`; each branch reads the
fields it needs).  `customerPresent = false` models a payload whose
`customer` is absent, on which `customer.email` throws before any database
access in the `charge.success` branch. -/
structure ChargeData where
  reference : String
  amount : ℚ
  channel : String
  paid_at : String
  gateway_response : String
  customerPresent : Bool
deriving DecidableEq, Repr

/-- The parsed webhook envelope `{event, data}`. -/
inductive CallbackEvent where
  | chargeSuccess (d : ChargeData)
  | chargeFailed (d : ChargeData)
  | otherEvent
deriving DecidableEq, Repr

/-- The raw callback payload as stored into `callback_data` (for
`charge.failed`, augmented with `available_balance` — `none`/`some none`
/`some (some q)` for null/NaN/number — and `original_message`). -/
inductive StoredCallback where
  | success (d : ChargeData)
  | failed (d : ChargeData) (available_balance : Option (Option ℚ)) (original_message : String)
deriving DecidableEq, Repr

/-- A row of `mpesa_transactions` (the fields this code reads or writes). -/
structure TxRecord where
  checkout_request_id : String
  user_id : String
  purpose : String
  amount : ℚ
  status : String
  result_code : Int
  result_desc : String
  mpesa_receipt_number : String
  chama_id : Option String
  transaction_type : String
  created_at : Int
  transaction_date : Option String
  callback_data : Option StoredCallback
deriving DecidableEq, Repr

/-- A row of `user_central_wallets`. -/
structure Wallet where
  user_id : String
  balance : ℚ
deriving DecidableEq, Repr

/-- A row of `wallet_transactions` (the callback insert sets `currency`,
the manual-credit insert does not). -/
structure WalletTx where
  user_id : String
  type : String
  amount : ℚ
  description : String
  status : String
  reference_id : String
  payment_method : String
  currency : Option String
deriving DecidableEq, Repr

/-- A row of `chama_notifications`. -/
structure Notification where
  user_id : String
  chama_id : Option String
  type : String
  title : String
  message : String
deriving DecidableEq, Repr

/-- The hosted database state touched by these code paths. -/
structure DB where
  transactions : List TxRecord
  wallets : List Wallet
  wallet_transactions : List WalletTx
  notifications : List Notification
deriving DecidableEq, Repr

/-- Fault injection for the two wallet writes whose returned errors the
code inspects: `some msg` means the database reported an error carrying
that message. -/
structure Faults where
  createWalletError : Option String
  walletUpdateError : Option String
deriving DecidableEq, Repr

/-- All database writes succeed. -/
def noFaults : Faults := ⟨none, none⟩

/-- Callback handler: `const amountPaid = amount / 100` (Paystack amount is
in minor units). -/
def cbAmountPaid (amount : ℚ) : ℚ := amount / 100

/-- Callback handler: `const platformFee = amountPaid * 0.025`. -/
def cbPlatformFee (amount : ℚ) : ℚ := cbAmountPaid amount * (25 / 1000)

/-- Callback handler: `const netAmount = amountPaid - platformFee`. -/
def cbNetAmount (amount : ℚ) : ℚ := cbAmountPaid amount - cbPlatformFee amount

/-- Manual credit function: `const platformFee = amount * 0.025`, applied
directly to the transaction's stored amount. -/
def mcPlatformFee (amount : ℚ) : ℚ := amount * (25 / 1000)

/-- Manual credit function: `const netAmount = amount - platformFee`. -/
def mcNetAmount (amount : ℚ) : ℚ := amount - mcPlatformFee amount

/-- Channel label used in the callback's wallet-transaction description. -/
def channelLabel (ch : String) : String :=
  if ch == "mobile_money" then "M-Pesa"
  else if ch == "bank" then "Bank Transfer"
  else if ch == "card" then "Card"
  else "Paystack"

/-- Channel label used in the callback's success-notification message. -/
def channelLabelLong (ch : String) : String :=
  if ch == "mobile_money" then "M-Pesa/Airtel Money"
  else if ch == "bank" then "Bank Transfer"
  else if ch == "card" then "Card Payment"
  else "Paystack"

/-- The unconditional `charge.success` update of `mpesa_transactions`
rows matching the reference. -/
def successUpdate (d : ChargeData) (t : TxRecord) : TxRecord :=
  { t with
    status := "success"
    result_code := 0
    result_desc := "Payment via " ++ d.channel ++ " successful"
    mpesa_receipt_number := d.reference
    transaction_date := some d.paid_at
    callback_data := some (StoredCallback.success d) }

/-- The `wallet_transactions` row inserted by the callback's crediting
branch. -/
def cbWalletTx (d : ChargeData) (tx : TxRecord) : WalletTx :=
  { user_id := tx.user_id
    type := "deposit"
    amount := cbNetAmount d.amount
    description := channelLabel d.channel ++ " deposit (Fee: KES " ++
      toFixed2 (cbPlatformFee d.amount) ++ ")"
    status := "completed"
    reference_id := d.reference
    payment_method := d.channel
    currency := some "KES" }

/-- The `chama_notifications` row inserted by the callback's crediting
branch. -/
def cbNotification (d : ChargeData) (tx : TxRecord) : Notification :=
  { user_id := tx.user_id
    chama_id := tx.chama_id
    type := "payment_success"
    title := "💰 Payment Successful"
    message := "KES " ++ toFixed2 (cbNetAmount d.amount) ++ " added via " ++
      channelLabelLong d.channel }

/-- `update({balance: ...}).eq('user_id', uid)`: set the balance of every
wallet row with that user id. -/
def walletUpdateMap (uid : String) (newBal : ℚ) (l : List Wallet) : List Wallet :=
  l.map fun w => if w.user_id == uid then { w with balance := newBal } else w

/-- The callback's wallet-crediting branch (`charge.success`, purpose
`'other'` or `'wallet_topup'`): fetch the central wallet, lazily create it
on a miss (a create error is only logged and leaves `centralWallet` null,
skipping the credit), then read-modify-write the balance; only when the
balance update reports no error are the ledger row and the success
notification inserted.  The `collect_platform_fee` RPC that follows in the
source is an external database function with no state modelled here. -/
def creditWallet (f : Faults) (d : ChargeData) (tx : TxRecord) (db : DB) : DB :=
  let fetched := selectSingle (fun w => w.user_id == tx.user_id) db.wallets
  let step : Option Wallet × DB :=
    match fetched with
    | some w => (some w, db)
    | none =>
      match f.createWalletError with
      | some _ => (none, db)
      | none =>
        let nw : Wallet := { user_id := tx.user_id, balance := 0 }
        (some nw, { db with wallets := db.wallets ++ [nw] })
  match step with
  | (none, db1) => db1
  | (some w, db1) =>
    match f.walletUpdateError with
    | some _ => db1
    | none =>
      let db2 := { db1 with
        wallets := walletUpdateMap tx.user_id (w.balance + cbNetAmount d.amount) db1.wallets }
      let db3 := { db2 with wallet_transactions := db2.wallet_transactions ++ [cbWalletTx d tx] }
      { db3 with notifications := db3.notifications ++ [cbNotification d tx] }

/-- The `charge.success` branch: look up the transaction by reference
(`.single()`), issue the status update unconditionally, then credit the
wallet only when the lookup succeeded and the purpose is `'other'` or
`'wallet_topup'`.  When `customer` is absent the `customer.email` access
throws before any database call (state unchanged; the outer catch still
answers 200). -/
def processChargeSuccess (f : Faults) (d : ChargeData) (db : DB) : DB :=
  if d.customerPresent then
    let transaction := selectSingle (fun t => t.checkout_request_id == d.reference) db.transactions
    let db1 := { db with transactions := db.transactions.map fun t =>
      if t.checkout_request_id == d.reference then successUpdate d t else t }
    match transaction with
    | none => db1
    | some tx =>
      if tx.purpose == "other" || tx.purpose == "wallet_topup" then creditWallet f d tx db1
      else db1
  else db

/-- `let parsedMessage = gateway_response || 'Payment failed'` (the empty
string is the falsy string). -/
def parsedMessageOf (g : String) : String :=
  if g == "" then "Payment failed" else g

/-- `parsedMessage.match(regex)` followed by
`parseFloat(balanceMatch[1].replace(/,/g, ''))`: outer `none` = no regex
match (`availableBalance` stays null), `some none` = matched but
`parseFloat` gave `NaN`, `some (some q)` = extracted number. -/
def availableBalanceOf (msg : String) : Option (Option ℚ) :=
  (scanBalance msg.toList).map fun cap => jsParseFloat (cap.filter fun c => c != ',')

/-- The extracted numeric `availableBalance` of a `charge.failed` gateway
response (after the `|| 'Payment failed'` defaulting), when the regex
matched and the capture parsed as a number. -/
def extractBalance (g : String) : Option ℚ :=
  (availableBalanceOf (parsedMessageOf g)).bind id

/-- Rendering of the JS number in the user message (`NaN` prints "NaN"). -/
def jsNumToFixed2 : Option ℚ → String
  | some q => toFixed2 q
  | none => "NaN"

/-- The user-facing message built by the `charge.failed` branch. -/
def failedUserMessage (g ch : String) : String :=
  let parsedMessage := parsedMessageOf g
  match availableBalanceOf parsedMessage with
  | some v =>
    "💳 Payment failed: Insufficient " ++
      (if ch == "mobile_money" then "mobile money" else "account") ++
      " balance\n💼 Available balance: KES " ++ jsNumToFixed2 v ++
      "\n🔁 Please top up your account or try a smaller amount."
  | none =>
    if ch == "mobile_money" then
      "💳 " ++ (if ch == "mobile_money" then "Mobile Money" else "Payment") ++
        " transaction failed\n" ++ parsedMessage ++
        "\n🔁 Please try again or contact your provider."
    else parsedMessage

/-- The `charge.failed` update of `mpesa_transactions` rows matching the
reference. -/
def failedUpdate (d : ChargeData) (userMessage : String)
    (availableBalance : Option (Option ℚ)) (t : TxRecord) : TxRecord :=
  { t with
    status := "failed"
    result_code := 1
    result_desc := userMessage
    callback_data := some (StoredCallback.failed d availableBalance d.gateway_response) }

/-- The `charge.failed` branch: parse the gateway response, update the
transaction to `failed` with the user message, then re-fetch the
transaction and insert a failure notification when a row with a truthy
`user_id` came back. -/
def processChargeFailed (d : ChargeData) (db : DB) : DB :=
  let availableBalance := availableBalanceOf (parsedMessageOf d.gateway_response)
  let userMessage := failedUserMessage d.gateway_response d.channel
  let db1 := { db with transactions := db.transactions.map fun t =>
    if t.checkout_request_id == d.reference then failedUpdate d userMessage availableBalance t
    else t }
  match selectSingle (fun t => t.checkout_request_id == d.reference) db1.transactions with
  | some tx =>
    if tx.user_id != "" then
      { db1 with notifications := db1.notifications ++
        [{ user_id := tx.user_id, chama_id := tx.chama_id, type := "payment_failed",
           title := "❌ Payment Failed", message := userMessage }] }
    else db1
  | none => db1

/-- An HTTP request as the callback handler sees it: the method, the
`x-paystack-signature` header (`none` when absent), and the raw text body. -/
structure HRequest where
  method : String
  signature : Option String
  body : String
deriving DecidableEq, Repr

/-- An HTTP response: status and body (`none` = `new Response(null, ...)`). -/
structure HResponse where
  status : Nat
  body : Option String
deriving DecidableEq, Repr

/-- The paystack-callback serve handler.  `hmac secret body` models
`createHmac('sha512', secret).update(body).digest('hex')`; `parse` models
`JSON.parse` plus the envelope destructuring (`none` = it threw, landing in
the catch, which still answers 200 "OK").  An unset or empty
`PAYSTACK_SECRET_KEY` is falsy and yields the 500 configuration error. -/
def callbackHandler (hmac : String → String → String)
    (parse : String → Option CallbackEvent) (secretKey : Option String)
    (f : Faults) (req : HRequest) (db : DB) : HResponse × DB :=
  if req.method == "OPTIONS" then (⟨200, none⟩, db)
  else
    match secretKey with
    | none => (⟨500, some "Configuration error"⟩, db)
    | some key =>
      if key == "" then (⟨500, some "Configuration error"⟩, db)
      else
        let hash := hmac key req.body
        if req.signature != some hash then (⟨401, some "Invalid signature"⟩, db)
        else
          match parse req.body with
          | none => (⟨200, some "OK"⟩, db)
          | some (.chargeSuccess d) => (⟨200, some "OK"⟩, processChargeSuccess f d db)
          | some (.chargeFailed d) => (⟨200, some "OK"⟩, processChargeFailed d db)
          | some .otherEvent => (⟨200, some "OK"⟩, db)

/-- A request to the manual-credit-payment function: the method and the
`reference` obtained from `await req.json()`; `none` models a body on
which the JSON parse throws (caught, answered 400). -/
structure MCRequest where
  method : String
  reference : Option String
deriving DecidableEq, Repr

/-- Responses of the manual-credit-payment function: the OPTIONS CORS
reply, the 200 `{success: true, message, amount, newBalance}` body, or the
400 `{success: false, error}` body. -/
inductive MCResponse where
  | cors
  | ok (amount : ℚ) (newBalance : ℚ)
  | err (error : String)
deriving DecidableEq, Repr

/-- HTTP status of each manual-credit response. -/
def MCResponse.statusCode : MCResponse → Nat
  | .cors => 200
  | .ok _ _ => 200
  | .err _ => 400

/-- Placeholder for the runtime's JSON-parse exception message (its exact
text is environment-defined; the code returns `error.message`). -/
def jsonParseErrorMessage : String := "Unexpected end of JSON input"

/-- Tail of the manual credit function once a wallet row `w` is in hand
(`db` already contains the lazily created row when there was one): the
balance update (its error is thrown → caught → 400, leaving
`mpesa_transactions` and `wallet_transactions` untouched), then the
ledger insert, then the transaction status update, then the success body.
`nowIso` models `new Date().toISOString()`. -/
def mcCredit (f : Faults) (ref nowIso : String) (tx : TxRecord) (w : Wallet)
    (db : DB) : MCResponse × DB :=
  let netAmount := mcNetAmount tx.amount
  match f.walletUpdateError with
  | some m => (.err m, db)
  | none =>
    let db2 := { db with wallets := walletUpdateMap tx.user_id (w.balance + netAmount) db.wallets }
    let db3 := { db2 with wallet_transactions := db2.wallet_transactions ++
      [({ user_id := tx.user_id
          type := "deposit"
          amount := netAmount
          description := "Wallet top-up via Paystack (Fee: KES " ++
            toFixed2 (mcPlatformFee tx.amount) ++ ")"
          status := "completed"
          reference_id := ref
          payment_method := "paystack"
          currency := none } : WalletTx)] }
    let db4 := { db3 with transactions := db3.transactions.map fun t =>
      if t.checkout_request_id == ref then
        { t with
          status := "success"
          result_code := 0
          result_desc := "Payment verified and credited manually"
          mpesa_receipt_number := ref
          transaction_date := some nowIso }
      else t }
    (.ok netAmount (w.balance + netAmount), db4)

/-- The manual-credit-payment serve handler: load the transaction by
reference (throw "Transaction not found" on lookup error or missing row),
recompute fee and net from the stored amount, fetch or create the wallet
(a create error is thrown), then `mcCredit`.  Every thrown error lands in
the catch, which answers 400 `{success: false, error}` with the throw's
message. -/
def manualCredit (f : Faults) (req : MCRequest) (nowIso : String) (db : DB) :
    MCResponse × DB :=
  if req.method == "OPTIONS" then (.cors, db)
  else
    match req.reference with
    | none => (.err jsonParseErrorMessage, db)
    | some ref =>
      match selectSingle (fun t => t.checkout_request_id == ref) db.transactions with
      | none => (.err "Transaction not found", db)
      | some tx =>
        match selectSingle (fun w => w.user_id == tx.user_id) db.wallets with
        | some w => mcCredit f ref nowIso tx w db
        | none =>
          match f.createWalletError with
          | some m => (.err m, db)
          | none =>
            let nw : Wallet := { user_id := tx.user_id, balance := 0 }
            mcCredit f ref nowIso tx nw { db with wallets := db.wallets ++ [nw] }

/-- The Stuck-Payment Reconciler's fetch cycle: with no authenticated user
the query function returns `[]`; otherwise it selects the current user's
`mpesa_transactions` rows with `transaction_type = 'paystack'`,
`status = 'pending'`, and `created_at` strictly less than
`now - 5 * 60 * 1000` milliseconds (`created_at` and `now` in epoch
milliseconds, mirroring the ISO-timestamp comparison). -/
def stuckPaymentsQuery (user : Option String) (now : Int) (db : DB) : List TxRecord :=
  match user with
  | none => []
  | some uid =>
    let fiveMinutesAgo := now - 5 * 60 * 1000
    db.transactions.filter fun t =>
      t.user_id == uid && t.transaction_type == "paystack" && t.status == "pending" &&
        decide (t.created_at < fiveMinutesAgo)

/-- The balance a `.single()` fetch of the user's central wallet observes
(0 when no unique row exists). -/
def walletBalance (uid : String) (db : DB) : ℚ :=
  match selectSingle (fun w => w.user_id == uid) db.wallets with
  | some w => w.balance
  | none => 0

/-- A transaction row with the fields the claims vary, and neutral values
elsewhere. -/
def mkTx (ref uid purpose : String) (amount : ℚ) (status : String) : TxRecord :=
  { checkout_request_id := ref
    user_id := uid
    purpose := purpose
    amount := amount
    status := status
    result_code := -1
    result_desc := ""
    mpesa_receipt_number := ""
    chama_id := none
    transaction_type := "paystack"
    created_at := 0
    transaction_date := none
    callback_data := none }

/-- A `charge.success`/`charge.failed` payload with the given reference,
amount, channel and gateway response, and `customer` present. -/
def mkCharge (ref : String) (amount : ℚ) (ch paidAt g : String) : ChargeData :=
  { reference := ref
    amount := amount
    channel := ch
    paid_at := paidAt
    gateway_response := g
    customerPresent := true }

/-- Evaluation rule for `toFixed2` once the rounded cents are known. -/
theorem toFixed2_of_floor (q : ℚ) (n : Nat) (h : ⌊q * 100 + 1 / 2⌋ = (n : Int)) :
    toFixed2 q = centsToDecimalString n := by
  unfold toFixed2
  rw [h, if_neg (by omega), Int.toNat_natCast]

/-- C4: for a `charge.success` event with amount `A` in minor units the
callback handler computes `amountPaid = A/100`, `platformFee = A/100 ×
0.025`, `netAmount = A/100 × 0.975`, with `fee + net = A/100` exactly; at
`A = 10000` this gives `amountPaid` 100.00, fee 2.50, net 97.50. -/
theorem c4_callback_fee_computation (A : ℚ) :
    cbAmountPaid A = A / 100 ∧
    cbPlatformFee A = A / 100 * (25 / 1000) ∧
    cbNetAmount A = A / 100 * (975 / 1000) ∧
    cbPlatformFee A + cbNetAmount A = A / 100 ∧
    cbAmountPaid 10000 = 100 ∧ cbPlatformFee 10000 = 5 / 2 ∧ cbNetAmount 10000 = 195 / 2 ∧
    toFixed2 (cbAmountPaid 10000) = "100.00" ∧ toFixed2 (cbPlatformFee 10000) = "2.50" ∧
    toFixed2 (cbNetAmount 10000) = "97.50" := by
  refine ⟨rfl, rfl, ?_, ?_, by norm_num [cbAmountPaid], by norm_num [cbPlatformFee, cbAmountPaid],
    by norm_num [cbNetAmount, cbPlatformFee, cbAmountPaid],
    (toFixed2_of_floor _ 10000 (by norm_num [cbAmountPaid])).trans (by decide),
    (toFixed2_of_floor _ 250 (by norm_num [cbPlatformFee, cbAmountPaid])).trans (by decide),
    (toFixed2_of_floor _ 9750 (by norm_num [cbNetAmount, cbPlatformFee, cbAmountPaid])).trans
      (by decide)⟩
  · simp only [cbNetAmount, cbPlatformFee, cbAmountPaid]; ring
  · simp only [cbNetAmount, cbPlatformFee, cbAmountPaid]; ring

/-- C1 (counterexample): for the stored amount `A = 10000` the Manual
Credit Function credits net 9750 (fee 250), while the Callback Handler
processing a `charge.success` event with amount 10000 credits net 97.50
(fee 2.50) — the two crediting paths do NOT credit the same net amount,
both at the formula level and on a whole-database run. -/
theorem c1_counterexample :
    mcNetAmount 10000 = 9750 ∧ cbNetAmount 10000 = 195 / 2 ∧
    mcNetAmount 10000 ≠ cbNetAmount 10000 ∧
    mcPlatformFee 10000 = 250 ∧ cbPlatformFee 10000 = 5 / 2 ∧
    mcPlatformFee 10000 ≠ cbPlatformFee 10000 ∧
    (manualCredit noFaults ⟨"POST", some "r1"⟩ "now"
      ⟨[mkTx "r1" "u1" "wallet_topup" 10000 "pending"], [⟨"u1", 0⟩], [], []⟩).1 =
      MCResponse.ok 9750 9750 ∧
    walletBalance "u1" (processChargeSuccess noFaults (mkCharge "r1" 10000 "mobile_money" "t" "")
      ⟨[mkTx "r1" "u1" "wallet_topup" 10000 "pending"], [⟨"u1", 0⟩], [], []⟩) = 195 / 2 := by
  refine ⟨by norm_num [mcNetAmount, mcPlatformFee], by norm_num [cbNetAmount, cbPlatformFee, cbAmountPaid],
    by norm_num [mcNetAmount, mcPlatformFee, cbNetAmount, cbPlatformFee, cbAmountPaid],
    by norm_num [mcPlatformFee], by norm_num [cbPlatformFee, cbAmountPaid],
    by norm_num [mcPlatformFee, cbPlatformFee, cbAmountPaid], ?_, ?_⟩
  · simp [manualCredit, selectSingle, mkTx, mcCredit, mcNetAmount, mcPlatformFee, noFaults]
    norm_num
  · simp [walletBalance, processChargeSuccess, selectSingle, mkTx, mkCharge, creditWallet,
      walletUpdateMap, successUpdate, cbNetAmount, cbPlatformFee, cbAmountPaid, noFaults]
    norm_num

/-- C1 (amended): both paths apply the same 2.5% fee formula, but to
different bases — the Manual Credit Function to the stored amount `A`
directly, the Callback Handler to `A / 100` — so for the same numeric
amount `A` the manual path computes exactly 100 times the callback's fee
and net, and the two paths credit the same net amount precisely when the
callback's event amount is `100 × A`. -/
theorem c1_amended_fee_paths_scale (A : ℚ) :
    mcPlatformFee A = 100 * cbPlatformFee A ∧
    mcNetAmount A = 100 * cbNetAmount A ∧
    cbPlatformFee (100 * A) = mcPlatformFee A ∧
    cbNetAmount (100 * A) = mcNetAmount A := by
  refine ⟨?_, ?_, ?_, ?_⟩ <;>
    (simp only [mcNetAmount, mcPlatformFee, cbNetAmount, cbPlatformFee, cbAmountPaid]; ring)

/-- C10: on an OPTIONS request both handlers return immediately with the
CORS-only response and leave the database untouched, for every signature,
body, secret and fault configuration. -/
theorem c10_options_early_return (hmac : String → String → String)
    (parse : String → Option CallbackEvent) (secretKey : Option String)
    (f : Faults) (req : HRequest) (mreq : MCRequest) (nowIso : String) (db : DB)
    (h1 : req.method = "OPTIONS") (h2 : mreq.method = "OPTIONS") :
    callbackHandler hmac parse secretKey f req db = (⟨200, none⟩, db) ∧
    manualCredit f mreq nowIso db = (MCResponse.cors, db) := by
  constructor
  · simp [callbackHandler, h1]
  · simp [manualCredit, h2]

/-- Witness for `c10_options_early_return` at a concrete OPTIONS request
carrying a (ignored) signature and body. -/
theorem c10_options_early_return_witness :
    callbackHandler (fun _ _ => "h") (fun _ => none) (some "sk") noFaults
      ⟨"OPTIONS", some "sig", "body"⟩ ⟨[], [], [], []⟩ = (⟨200, none⟩, ⟨[], [], [], []⟩) ∧
    manualCredit noFaults ⟨"OPTIONS", some "r"⟩ "now" ⟨[], [], [], []⟩ =
      (MCResponse.cors, ⟨[], [], [], []⟩) :=
  c10_options_early_return (fun _ _ => "h") (fun _ => none) (some "sk") noFaults
    ⟨"OPTIONS", some "sig", "body"⟩ ⟨"OPTIONS", some "r"⟩ "now" ⟨[], [], [], []⟩ rfl rfl

/-- C7: a transaction is in the reconciler's fetched stuck set iff it is in
the table, owned by the authenticated user, of type `paystack`, status
`pending`, and created strictly more than 5 minutes before the query time;
with no user the query returns nothing; a pending transaction created 4
minutes ago is excluded while one created 6 minutes ago is included. -/
theorem c7_stuck_query_filter (uid : String) (now : Int) (db : DB) (t : TxRecord) :
    (t ∈ stuckPaymentsQuery (some uid) now db ↔
      t ∈ db.transactions ∧ t.user_id = uid ∧ t.transaction_type = "paystack" ∧
        t.status = "pending" ∧ t.created_at < now - 5 * 60 * 1000) ∧
    stuckPaymentsQuery none now db = [] ∧
    stuckPaymentsQuery (some "u1") 0
      ⟨[{ mkTx "r1" "u1" "wallet_topup" 10 "pending" with created_at := -240000 }],
        [], [], []⟩ = [] ∧
    stuckPaymentsQuery (some "u1") 0
      ⟨[{ mkTx "r1" "u1" "wallet_topup" 10 "pending" with created_at := -360000 }],
        [], [], []⟩ =
      [{ mkTx "r1" "u1" "wallet_topup" 10 "pending" with created_at := -360000 }] := by
  refine ⟨?_, rfl, by decide, by decide⟩
  simp [stuckPaymentsQuery, List.mem_filter, and_assoc]

/-- The callback's wallet-crediting branch never touches
`mpesa_transactions`. -/
theorem creditWallet_transactions (f : Faults) (d : ChargeData) (tx : TxRecord) (db : DB) :
    (creditWallet f d tx db).transactions = db.transactions := by
  unfold creditWallet
  cases selectSingle (fun w => w.user_id == tx.user_id) db.wallets with
  | some w => cases f.walletUpdateError <;> simp
  | none =>
    cases f.createWalletError with
    | some m => simp
    | none => cases f.walletUpdateError <;> simp

/-- C2: for every non-OPTIONS request, an unconfigured (unset or empty)
secret yields 500; a configured secret with a signature different from the
hex HMAC-SHA512 of the raw body yields 401 with no database change; and a
matching signature always yields 200 with body "OK", whatever the parse
and processing outcome. -/
theorem c2_response_policy (hmac : String → String → String)
    (parse : String → Option CallbackEvent) (secretKey : Option String)
    (f : Faults) (req : HRequest) (db : DB) (hm : req.method ≠ "OPTIONS") :
    ((secretKey = none ∨ secretKey = some "") →
      callbackHandler hmac parse secretKey f req db =
        (⟨500, some "Configuration error"⟩, db)) ∧
    (∀ key, secretKey = some key → key ≠ "" →
      req.signature ≠ some (hmac key req.body) →
      callbackHandler hmac parse secretKey f req db =
        (⟨401, some "Invalid signature"⟩, db)) ∧
    (∀ key, secretKey = some key → key ≠ "" →
      req.signature = some (hmac key req.body) →
      (callbackHandler hmac parse secretKey f req db).1 = ⟨200, some "OK"⟩) := by
  have hb : (req.method == "OPTIONS") = false := by simp [hm]
  refine ⟨?_, ?_, ?_⟩
  · rintro (rfl | rfl) <;> simp [callbackHandler, hb]
  · rintro key rfl hk hsig
    simp [callbackHandler, hb, hk, hsig]
  · rintro key rfl hk hsig
    cases hp : parse req.body with
    | none => simp [callbackHandler, hb, hk, hsig, hp]
    | some ev => cases ev <;> simp [callbackHandler, hb, hk, hsig, hp]

/-- Witness for `c2_response_policy`: a concrete POST whose signature
matches under a concrete keyed-hash function answers 200 "OK", and the
same request with a wrong signature answers 401 leaving the database
unchanged. -/
theorem c2_response_policy_witness :
    (callbackHandler (fun k b => k ++ b) (fun _ => none) (some "sk") noFaults
      ⟨"POST", some "skbody", "body"⟩ ⟨[], [], [], []⟩).1 = ⟨200, some "OK"⟩ ∧
    callbackHandler (fun k b => k ++ b) (fun _ => none) (some "sk") noFaults
      ⟨"POST", some "bad", "body"⟩ ⟨[], [], [], []⟩ =
      (⟨401, some "Invalid signature"⟩, ⟨[], [], [], []⟩) :=
  ⟨(c2_response_policy (fun k b => k ++ b) (fun _ => none) (some "sk") noFaults
      ⟨"POST", some "skbody", "body"⟩ ⟨[], [], [], []⟩ (by decide)).2.2 "sk" rfl
      (by decide) (by decide),
   (c2_response_policy (fun k b => k ++ b) (fun _ => none) (some "sk") noFaults
      ⟨"POST", some "bad", "body"⟩ ⟨[], [], [], []⟩ (by decide)).2.1 "sk" rfl
      (by decide) (by decide)⟩

/-- The `charge.success` processing rewrites every `mpesa_transactions`
row matching the reference to `success`, with no assumption on the
preceding `.single()` lookup. -/
theorem processChargeSuccess_transactions_update (f : Faults) (d : ChargeData) (db : DB)
    (hc : d.customerPresent = true) :
    (processChargeSuccess f d db).transactions =
      db.transactions.map fun t =>
        if t.checkout_request_id == d.reference then successUpdate d t else t := by
  unfold processChargeSuccess
  rw [hc]
  simp only [if_true]
  cases selectSingle (fun t => t.checkout_request_id == d.reference) db.transactions with
  | none => rfl
  | some tx =>
    by_cases hp : (tx.purpose == "other" || tx.purpose == "wallet_topup") = true
    · simp only [hp, if_true]
      rw [creditWallet_transactions]
    · simp only [Bool.not_eq_true] at hp
      simp only [hp, Bool.false_eq_true, if_false]

/-- C6: for every request that passes signature verification and parses to
a `charge.success` event (with the payload's `customer` present, so
processing reaches the database), the handler rewrites every
`mpesa_transactions` row matching the reference to `success` — with result
code 0, the channel description, the reference as receipt number, the
paid-at timestamp and the raw callback payload — and this holds with no
assumption on the transaction lookup by reference, which may have returned
no row or an error. -/
theorem c6_unconditional_status_update (hmac : String → String → String)
    (parse : String → Option CallbackEvent) (key : String) (f : Faults)
    (req : HRequest) (db : DB) (d : ChargeData)
    (hm : req.method ≠ "OPTIONS") (hk : key ≠ "")
    (hsig : req.signature = some (hmac key req.body))
    (hparse : parse req.body = some (CallbackEvent.chargeSuccess d))
    (hc : d.customerPresent = true) :
    (callbackHandler hmac parse (some key) f req db).2.transactions =
      db.transactions.map fun t =>
        if t.checkout_request_id == d.reference then successUpdate d t else t := by
  have hb : (req.method == "OPTIONS") = false := by simp [hm]
  have hkb : (key == "") = false := by simp [hk]
  have hsb : (req.signature != some (hmac key req.body)) = false := by simp [hsig]
  simp only [callbackHandler, hb, hkb, hsb, hparse, Bool.false_eq_true, if_false]
  exact processChargeSuccess_transactions_update f d db hc

/-- Witness for `c6_unconditional_status_update`: a database whose lookup
by the event's reference fails (two rows share the reference, so
`.single()` errors) still gets both rows marked `success`. -/
theorem c6_unconditional_status_update_witness :
    (callbackHandler (fun k b => k ++ b)
      (fun _ => some (CallbackEvent.chargeSuccess (mkCharge "r1" 10000 "card" "t" "")))
      (some "sk") noFaults ⟨"POST", some "skbody", "body"⟩
      ⟨[mkTx "r1" "u1" "wallet_topup" 10000 "pending",
        mkTx "r1" "u2" "wallet_topup" 10000 "pending"], [], [], []⟩).2.transactions =
      [successUpdate (mkCharge "r1" 10000 "card" "t" "")
        (mkTx "r1" "u1" "wallet_topup" 10000 "pending"),
       successUpdate (mkCharge "r1" 10000 "card" "t" "")
        (mkTx "r1" "u2" "wallet_topup" 10000 "pending")] := by
  rw [c6_unconditional_status_update (fun k b => k ++ b)
    (fun _ => some (CallbackEvent.chargeSuccess (mkCharge "r1" 10000 "card" "t" "")))
    "sk" noFaults ⟨"POST", some "skbody", "body"⟩
    ⟨[mkTx "r1" "u1" "wallet_topup" 10000 "pending",
      mkTx "r1" "u2" "wallet_topup" 10000 "pending"], [], [], []⟩
    (mkCharge "r1" 10000 "card" "t" "") (by decide) (by decide) rfl rfl rfl]
  simp [mkTx, mkCharge]

/-- `leadsList n h` : `n` matches the start of `h` (exact characters). -/
def leadsList : List Char → List Char → Bool
  | [], _ => true
  | _ :: _, [] => false
  | a :: as, b :: bs => a == b && leadsList as bs

/-- Substring search: does `n` occur contiguously inside the first list? -/
def containsSub : List Char → List Char → Bool
  | [], n => n.isEmpty
  | c :: cs, n => leadsList n (c :: cs) || containsSub cs n

/-- `strContains hay needle` : `needle` occurs as a substring of `hay`. -/
def strContains (hay needle : String) : Bool := containsSub hay.toList needle.toList

/-- The capture of the worked example "Your Airtel Money balance is Ksh
35.00" parses to the rational 35. -/
theorem jsParseFloat_3500 : jsParseFloat ('3' :: '5' :: '.' :: '0' :: '0' :: []) = some 35 := by
  have h1 : List.takeWhile Char.isDigit ('3' :: '5' :: '.' :: '0' :: '0' :: []) =
      ('3' :: '5' :: []) := by decide
  have h2 : List.dropWhile Char.isDigit ('3' :: '5' :: '.' :: '0' :: '0' :: []) =
      ('.' :: '0' :: '0' :: []) := by decide
  have h3 : List.takeWhile Char.isDigit ('0' :: '0' :: []) = ('0' :: '0' :: []) := by decide
  have d1 : digitsToNat ('3' :: '5' :: []) = 35 := by decide
  have d2 : digitsToNat ('0' :: '0' :: []) = 0 := by decide
  unfold jsParseFloat
  rw [h1, h2]
  simp only [h3, d1, d2]
  norm_num

/-- The worked example's gateway response yields `availableBalance = 35`. -/
theorem extractBalance_example :
    extractBalance "Your Airtel Money balance is Ksh 35.00" = some 35 := by
  have hscan : scanBalance "Your Airtel Money balance is Ksh 35.00".toList =
      some ('3' :: '5' :: '.' :: '0' :: '0' :: []) := by decide
  have hfilter : (('3' :: '5' :: '.' :: '0' :: '0' :: []).filter fun c => c != ',') =
      ('3' :: '5' :: '.' :: '0' :: '0' :: []) := by decide
  unfold extractBalance availableBalanceOf parsedMessageOf
  rw [if_neg (by decide), hscan]
  simp only [Option.map_some', Option.some_bind, id_eq, hfilter]
  exact jsParseFloat_3500

/-- Substring search succeeds on an exact occurrence at the front. -/
theorem leadsList_refl_append (n s : List Char) : leadsList n (n ++ s) = true := by
  induction n with
  | nil => rfl
  | cons a as ih => simp [leadsList, ih]

/-- The empty needle occurs in every haystack. -/
theorem containsSub_nil (h : List Char) : containsSub h [] = true := by
  induction h with
  | nil => rfl
  | cons c cs ih => simp [containsSub, leadsList, ih]

/-- An occurrence survives prepending more haystack. -/
theorem containsSub_append_left (x y n : List Char)
    (h : containsSub y n = true) : containsSub (x ++ y) n = true := by
  induction x with
  | nil => simpa using h
  | cons c cs ih => simp [containsSub, ih]

/-- `strContains` survives prepending. -/
theorem strContains_prepend (x y n : String) (h : strContains y n = true) :
    strContains (x ++ y) n = true := by
  show containsSub (x ++ y).data n.data = true
  rw [String.data_append]
  exact containsSub_append_left _ _ _ h

/-- `strContains` finds the needle at the front. -/
theorem strContains_self_append (n s : String) : strContains (n ++ s) n = true := by
  show containsSub (n ++ s).data n.data = true
  rw [String.data_append]
  cases hd : n.data with
  | nil => simpa [hd] using containsSub_nil s.data
  | cons a as =>
    have h1 : leadsList (a :: as) ((a :: as) ++ s.data) = true := leadsList_refl_append _ _
    simp only [List.cons_append] at h1
    simp [containsSub, h1]

/-- When the balance regex extracted the number `b`, the `charge.failed`
branch builds exactly the insufficient-balance template around
`toFixed2 b`. -/
theorem failedUserMessage_of_balance (g ch : String) (b : ℚ)
    (h : extractBalance g = some b) :
    failedUserMessage g ch =
      "💳 Payment failed: Insufficient " ++
        (if ch == "mobile_money" then "mobile money" else "account") ++
        " balance\n💼 Available balance: KES " ++ toFixed2 b ++
        "\n🔁 Please top up your account or try a smaller amount." := by
  have h2 : availableBalanceOf (parsedMessageOf g) = some (some b) := by
    unfold extractBalance at h
    cases hv : availableBalanceOf (parsedMessageOf g) with
    | none => rw [hv] at h; simp at h
    | some v =>
      rw [hv] at h
      simp only [Option.some_bind, id_eq] at h
      rw [h]
  simp only [failedUserMessage, h2, jsNumToFixed2]

/-- C8: whenever the gateway response of a `charge.failed` event matches
the balance pattern and the capture parses as the number `b`, the
user-facing message is the insufficient-balance template reporting
"KES " followed by `b` to two decimals; on the worked example "Your Airtel
Money balance is Ksh 35.00" the extracted balance is 35.00 and the message
contains "KES 35.00". -/
theorem c8_failed_balance_extraction (g ch : String) (b : ℚ)
    (h : extractBalance g = some b) :
    failedUserMessage g ch =
      "💳 Payment failed: Insufficient " ++
        (if ch == "mobile_money" then "mobile money" else "account") ++
        " balance\n💼 Available balance: KES " ++ toFixed2 b ++
        "\n🔁 Please top up your account or try a smaller amount." ∧
    strContains (failedUserMessage g ch) ("KES " ++ toFixed2 b) = true ∧
    extractBalance "Your Airtel Money balance is Ksh 35.00" = some 35 ∧
    failedUserMessage "Your Airtel Money balance is Ksh 35.00" "mobile_money" =
      "💳 Payment failed: Insufficient mobile money balance\n💼 Available balance: KES 35.00\n🔁 Please top up your account or try a smaller amount." ∧
    strContains (failedUserMessage "Your Airtel Money balance is Ksh 35.00" "mobile_money")
      "KES 35.00" = true := by
  have hmsg := failedUserMessage_of_balance g ch b h
  have hcontains : strContains (failedUserMessage g ch) ("KES " ++ toFixed2 b) = true := by
    rw [hmsg]
    have hB : (" balance\n💼 Available balance: KES " : String) =
        " balance\n💼 Available balance: " ++ "KES " := rfl
    rw [hB]
    simp only [String.append_assoc]
    rw [← String.append_assoc "KES " (toFixed2 b)
      "\n🔁 Please top up your account or try a smaller amount."]
    apply strContains_prepend
    apply strContains_prepend
    apply strContains_prepend
    exact strContains_self_append _ _
  have hex : failedUserMessage "Your Airtel Money balance is Ksh 35.00" "mobile_money" =
      "💳 Payment failed: Insufficient mobile money balance\n💼 Available balance: KES 35.00\n🔁 Please top up your account or try a smaller amount." := by
    rw [failedUserMessage_of_balance "Your Airtel Money balance is Ksh 35.00" "mobile_money"
      35 extractBalance_example]
    rw [toFixed2_of_floor 35 3500 (by norm_num)]
    rfl
  refine ⟨hmsg, hcontains, extractBalance_example, hex, ?_⟩
  rw [hex]
  decide

/-- Witness for `c8_failed_balance_extraction` at the worked example. -/
theorem c8_failed_balance_extraction_witness :
    failedUserMessage "Your Airtel Money balance is Ksh 35.00" "mobile_money" =
      "💳 Payment failed: Insufficient " ++
        (if "mobile_money" == "mobile_money" then "mobile money" else "account") ++
        " balance\n💼 Available balance: KES " ++ toFixed2 35 ++
        "\n🔁 Please top up your account or try a smaller amount." :=
  (c8_failed_balance_extraction "Your Airtel Money balance is Ksh 35.00" "mobile_money" 35
    extractBalance_example).1

/-- C9: whenever the Manual Credit Function answers with the error body
(`{success: false, error}`), the HTTP status is 400 and neither
`mpesa_transactions` nor `wallet_transactions` changed — the success
status update and the ledger insert happen only after the wallet balance
update succeeded; and a thrown wallet-create error (wallet missing) or
wallet-update error does produce that error response. -/
theorem c9_manual_credit_error_atomicity (f : Faults) (r nowIso : String) (db : DB) :
    (∀ m, (manualCredit f ⟨"POST", some r⟩ nowIso db).1 = MCResponse.err m →
      (manualCredit f ⟨"POST", some r⟩ nowIso db).1.statusCode = 400 ∧
      (manualCredit f ⟨"POST", some r⟩ nowIso db).2.transactions = db.transactions ∧
      (manualCredit f ⟨"POST", some r⟩ nowIso db).2.wallet_transactions =
        db.wallet_transactions) ∧
    (∀ tx, selectSingle (fun t => t.checkout_request_id == r) db.transactions = some tx →
      (f.walletUpdateError ≠ none ∨
        (f.createWalletError ≠ none ∧
          selectSingle (fun w => w.user_id == tx.user_id) db.wallets = none)) →
      ∃ m, (manualCredit f ⟨"POST", some r⟩ nowIso db).1 = MCResponse.err m) := by
  constructor
  · unfold manualCredit
    simp only [show (("POST" : String) == "OPTIONS") = false from rfl, Bool.false_eq_true,
      if_false]
    cases htx : selectSingle (fun t => t.checkout_request_id == r) db.transactions with
    | none => exact fun m _ => ⟨rfl, rfl, rfl⟩
    | some tx =>
      dsimp only
      cases hw : selectSingle (fun w => w.user_id == tx.user_id) db.wallets with
      | some w =>
        dsimp only
        unfold mcCredit
        cases hu : f.walletUpdateError with
        | some mu => exact fun m _ => ⟨rfl, rfl, rfl⟩
        | none => intro m hm; simp at hm
      | none =>
        dsimp only
        cases hc : f.createWalletError with
        | some mc => exact fun m _ => ⟨rfl, rfl, rfl⟩
        | none =>
          dsimp only
          unfold mcCredit
          cases hu : f.walletUpdateError with
          | some mu => exact fun m _ => ⟨rfl, rfl, rfl⟩
          | none => intro m hm; simp at hm
  · intro tx htx hbad
    unfold manualCredit
    simp only [show (("POST" : String) == "OPTIONS") = false from rfl, Bool.false_eq_true,
      if_false]
    rw [htx]
    dsimp only
    rcases hbad with hu | ⟨hcne, hnone⟩
    · obtain ⟨mu, hmu⟩ := Option.ne_none_iff_exists'.mp hu
      cases hw : selectSingle (fun w => w.user_id == tx.user_id) db.wallets with
      | some w =>
        dsimp only
        unfold mcCredit
        rw [hmu]
        exact ⟨mu, rfl⟩
      | none =>
        dsimp only
        cases hc : f.createWalletError with
        | some mc => exact ⟨mc, rfl⟩
        | none =>
          dsimp only
          unfold mcCredit
          rw [hmu]
          exact ⟨mu, rfl⟩
    · obtain ⟨mc, hmc⟩ := Option.ne_none_iff_exists'.mp hcne
      rw [hnone]
      dsimp only
      rw [hmc]
      exact ⟨mc, rfl⟩

/-- Witness for `c9_manual_credit_error_atomicity`: a database holding the
transaction and a wallet, with the wallet balance update failing — the
call answers 400 with the error body and both `mpesa_transactions` and
`wallet_transactions` are exactly as before. -/
theorem c9_manual_credit_error_atomicity_witness :
    (∃ m, (manualCredit ⟨none, some "update failed"⟩ ⟨"POST", some "r1"⟩ "now"
      ⟨[mkTx "r1" "u1" "wallet_topup" 100 "pending"], [⟨"u1", 5⟩], [], []⟩).1 =
        MCResponse.err m) ∧
    (manualCredit ⟨none, some "update failed"⟩ ⟨"POST", some "r1"⟩ "now"
      ⟨[mkTx "r1" "u1" "wallet_topup" 100 "pending"], [⟨"u1", 5⟩], [], []⟩).2.transactions =
      [mkTx "r1" "u1" "wallet_topup" 100 "pending"] ∧
    (manualCredit ⟨none, some "update failed"⟩ ⟨"POST", some "r1"⟩ "now"
      ⟨[mkTx "r1" "u1" "wallet_topup" 100 "pending"],
        [⟨"u1", 5⟩], [], []⟩).2.wallet_transactions = [] := by
  have h := c9_manual_credit_error_atomicity ⟨none, some "update failed"⟩ "r1" "now"
    ⟨[mkTx "r1" "u1" "wallet_topup" 100 "pending"], [⟨"u1", 5⟩], [], []⟩
  obtain ⟨m, hm⟩ := h.2 (mkTx "r1" "u1" "wallet_topup" 100 "pending") rfl
    (Or.inl (by simp))
  exact ⟨⟨m, hm⟩, (h.1 m hm).2.1, (h.1 m hm).2.2⟩

/-- C3: neither crediting path deduplicates by reference.  Starting from a
wallet with balance `X`: one `charge.success` delivery for a pending
wallet top-up of amount `A` leaves balance `X + N` (net `N`), an identical
second delivery leaves `X + 2N`; and the Manual Credit Function, called on
a transaction already marked `success`, answers success and credits the
net amount again — two calls move the balance from `X` to `X + 2N`. -/
theorem c3_no_deduplication (r uid ch paidAt nowIso : String) (X A : ℚ) :
    walletBalance uid (processChargeSuccess noFaults (mkCharge r A ch paidAt "")
      ⟨[mkTx r uid "wallet_topup" A "pending"], [⟨uid, X⟩], [], []⟩) = X + cbNetAmount A ∧
    walletBalance uid (processChargeSuccess noFaults (mkCharge r A ch paidAt "")
      (processChargeSuccess noFaults (mkCharge r A ch paidAt "")
        ⟨[mkTx r uid "wallet_topup" A "pending"], [⟨uid, X⟩], [], []⟩)) =
      X + 2 * cbNetAmount A ∧
    (manualCredit noFaults ⟨"POST", some r⟩ nowIso
      ⟨[mkTx r uid "wallet_topup" A "success"], [⟨uid, X⟩], [], []⟩).1 =
      MCResponse.ok (mcNetAmount A) (X + mcNetAmount A) ∧
    walletBalance uid (manualCredit noFaults ⟨"POST", some r⟩ nowIso
      ⟨[mkTx r uid "wallet_topup" A "success"], [⟨uid, X⟩], [], []⟩).2 = X + mcNetAmount A ∧
    (manualCredit noFaults ⟨"POST", some r⟩ nowIso
      (manualCredit noFaults ⟨"POST", some r⟩ nowIso
        ⟨[mkTx r uid "wallet_topup" A "success"], [⟨uid, X⟩], [], []⟩).2).1 =
      MCResponse.ok (mcNetAmount A) (X + mcNetAmount A + mcNetAmount A) ∧
    walletBalance uid (manualCredit noFaults ⟨"POST", some r⟩ nowIso
      (manualCredit noFaults ⟨"POST", some r⟩ nowIso
        ⟨[mkTx r uid "wallet_topup" A "success"], [⟨uid, X⟩], [], []⟩).2).2 =
      X + 2 * mcNetAmount A := by
  simp [processChargeSuccess, manualCredit, mcCredit, creditWallet, selectSingle,
    walletUpdateMap, walletBalance, successUpdate, mkTx, mkCharge, noFaults,
    cbWalletTx, cbNotification]
  ring_nf
  exact ⟨trivial, trivial⟩

/-- C5 (counterexample): a transaction whose purpose is `"other"` — not
wallet top-up — still gets its wallet credited by the `charge.success`
branch: with balance 0 and amount 10000 the balance becomes 97.50 and a
ledger row is written, refuting "for any other purpose no wallet credit
occurs". -/
theorem c5_counterexample :
    (mkTx "r1" "u1" "other" 10000 "pending").purpose = "other" ∧
    (mkTx "r1" "u1" "other" 10000 "pending").purpose ≠ "wallet_topup" ∧
    walletBalance "u1" (processChargeSuccess noFaults (mkCharge "r1" 10000 "card" "t" "")
      ⟨[mkTx "r1" "u1" "other" 10000 "pending"], [⟨"u1", 0⟩], [], []⟩) = 195 / 2 ∧
    (195 : ℚ) / 2 ≠ 0 ∧
    (processChargeSuccess noFaults (mkCharge "r1" 10000 "card" "t" "")
      ⟨[mkTx "r1" "u1" "other" 10000 "pending"], [⟨"u1", 0⟩], [], []⟩).wallet_transactions ≠
      [] := by
  refine ⟨rfl, by decide, ?_, by norm_num, ?_⟩
  · simp [processChargeSuccess, creditWallet, selectSingle, walletUpdateMap, walletBalance,
      successUpdate, mkTx, mkCharge, noFaults, cbWalletTx, cbNotification, cbNetAmount,
      cbPlatformFee, cbAmountPaid]
    norm_num
  · simp [processChargeSuccess, creditWallet, selectSingle, walletUpdateMap,
      successUpdate, mkTx, mkCharge, noFaults, cbWalletTx, cbNotification]

/-- Appending one element changes a list. -/
theorem append_singleton_ne {α : Type} (l : List α) (a : α) : l ++ [a] ≠ l := by
  intro h
  simpa using congrArg List.length h

/-- With no database faults the crediting branch appends exactly the
deposit ledger row. -/
theorem creditWallet_noFaults_wtx (d : ChargeData) (tx : TxRecord) (db : DB) :
    (creditWallet noFaults d tx db).wallet_transactions =
      db.wallet_transactions ++ [cbWalletTx d tx] := by
  unfold creditWallet
  cases selectSingle (fun w => w.user_id == tx.user_id) db.wallets <;> simp [noFaults]

/-- With no database faults the crediting branch appends exactly the
success notification. -/
theorem creditWallet_noFaults_notifications (d : ChargeData) (tx : TxRecord) (db : DB) :
    (creditWallet noFaults d tx db).notifications =
      db.notifications ++ [cbNotification d tx] := by
  unfold creditWallet
  cases selectSingle (fun w => w.user_id == tx.user_id) db.wallets <;> simp [noFaults]

/-- The wallets after the crediting branch, when the fetch found no unique
row: the lazily created wallet, then the balance write. -/
theorem creditWallet_noFaults_wallets_of_none (d : ChargeData) (tx : TxRecord) (db : DB)
    (hsel : selectSingle (fun w => w.user_id == tx.user_id) db.wallets = none) :
    (creditWallet noFaults d tx db).wallets =
      walletUpdateMap tx.user_id (0 + cbNetAmount d.amount)
        (db.wallets ++ [⟨tx.user_id, 0⟩]) := by
  unfold creditWallet
  rw [hsel]
  simp [noFaults]

/-- The wallets after the crediting branch, when the fetch found row `w`. -/
theorem creditWallet_noFaults_wallets_of_some (d : ChargeData) (tx : TxRecord) (db : DB)
    (w : Wallet)
    (hsel : selectSingle (fun w => w.user_id == tx.user_id) db.wallets = some w) :
    (creditWallet noFaults d tx db).wallets =
      walletUpdateMap tx.user_id (w.balance + cbNetAmount d.amount) db.wallets := by
  unfold creditWallet
  rw [hsel]
  simp [noFaults]

/-- The balance write touches only rows with the user's id and preserves
ids, so it commutes with filtering by that id. -/
theorem filter_walletUpdateMap (uid : String) (b : ℚ) (l : List Wallet) :
    (walletUpdateMap uid b l).filter (fun w => w.user_id == uid) =
      (l.filter fun w => w.user_id == uid).map fun w => { w with balance := b } := by
  unfold walletUpdateMap
  induction l with
  | nil => rfl
  | cons x xs ih =>
    simp only [beq_iff_eq] at ih ⊢
    by_cases h : x.user_id = uid
    · simp [List.filter_cons, h, ih]
    · simp [List.filter_cons, h, ih]

/-- `walletBalance` through the row filter. -/
theorem walletBalance_eq_filter (uid : String) (db : DB) :
    walletBalance uid db = (match db.wallets.filter (fun w => w.user_id == uid) with
      | [w] => w.balance
      | _ => 0) := by
  unfold walletBalance selectSingle
  cases db.wallets.filter (fun w => w.user_id == uid) with
  | nil => rfl
  | cons a l => cases l <;> rfl

/-- With no database faults, and at most one wallet row for the user (the
`.single()`-well-formed case), the crediting branch adds exactly the net
amount to the observed balance. -/
theorem creditWallet_noFaults_balance (d : ChargeData) (tx : TxRecord) (db : DB)
    (h : (db.wallets.filter fun w => w.user_id == tx.user_id).length ≤ 1) :
    walletBalance tx.user_id (creditWallet noFaults d tx db) =
      walletBalance tx.user_id db + cbNetAmount d.amount := by
  cases hF : db.wallets.filter (fun w => w.user_id == tx.user_id) with
  | nil =>
    have hsel : selectSingle (fun w => w.user_id == tx.user_id) db.wallets = none := by
      unfold selectSingle; rw [hF]
    rw [walletBalance_eq_filter, walletBalance_eq_filter,
      creditWallet_noFaults_wallets_of_none d tx db hsel, filter_walletUpdateMap,
      List.filter_append, hF]
    simp
  | cons w tl =>
    cases tl with
    | nil =>
      have hsel : selectSingle (fun w => w.user_id == tx.user_id) db.wallets = some w := by
        unfold selectSingle; rw [hF]
      rw [walletBalance_eq_filter, walletBalance_eq_filter,
        creditWallet_noFaults_wallets_of_some d tx db w hsel, filter_walletUpdateMap, hF]
      simp
    | cons w2 tl2 => rw [hF] at h; simp at h

/-- C5 (amended): for every `charge.success` event reaching the database,
the handler runs the wallet-credit branch — appending exactly one deposit
`wallet_transactions` row and one success notification, and (when the user
has at most one wallet row) adding the net amount to the balance — if and
only if the transaction lookup by reference succeeded AND the transaction's
purpose is `"other"` or `"wallet_topup"`; for every other purpose no
ledger row, notification or balance change is produced. -/
theorem c5_amended_credit_iff (d : ChargeData) (db : DB) (hc : d.customerPresent = true) :
    ((processChargeSuccess noFaults d db).wallet_transactions ≠ db.wallet_transactions ↔
      ∃ tx, selectSingle (fun t => t.checkout_request_id == d.reference) db.transactions =
          some tx ∧ (tx.purpose = "other" ∨ tx.purpose = "wallet_topup")) ∧
    ((processChargeSuccess noFaults d db).notifications ≠ db.notifications ↔
      ∃ tx, selectSingle (fun t => t.checkout_request_id == d.reference) db.transactions =
          some tx ∧ (tx.purpose = "other" ∨ tx.purpose = "wallet_topup")) ∧
    (∀ tx, selectSingle (fun t => t.checkout_request_id == d.reference) db.transactions =
        some tx →
      (tx.purpose = "other" ∨ tx.purpose = "wallet_topup") →
      (processChargeSuccess noFaults d db).wallet_transactions =
        db.wallet_transactions ++ [cbWalletTx d tx] ∧
      (processChargeSuccess noFaults d db).notifications =
        db.notifications ++ [cbNotification d tx] ∧
      ((db.wallets.filter fun w => w.user_id == tx.user_id).length ≤ 1 →
        walletBalance tx.user_id (processChargeSuccess noFaults d db) =
          walletBalance tx.user_id db + cbNetAmount d.amount)) := by
  unfold processChargeSuccess
  rw [hc]
  simp only [if_true]
  cases hsel : selectSingle (fun t => t.checkout_request_id == d.reference) db.transactions with
  | none =>
    dsimp only
    simp
  | some tx =>
    dsimp only
    by_cases hp : (tx.purpose == "other" || tx.purpose == "wallet_topup") = true
    · have hpProp : tx.purpose = "other" ∨ tx.purpose = "wallet_topup" := by
        simpa [Bool.or_eq_true, beq_iff_eq] using hp
      rw [if_pos hp]
      refine ⟨?_, ?_, ?_⟩
      · rw [creditWallet_noFaults_wtx]
        simp only [ne_eq, append_singleton_ne, not_false_eq_true, true_iff]
        exact ⟨tx, rfl, hpProp⟩
      · rw [creditWallet_noFaults_notifications]
        simp only [ne_eq, append_singleton_ne, not_false_eq_true, true_iff]
        exact ⟨tx, rfl, hpProp⟩
      · rintro tx' htx' hp'
        have he := Option.some.inj htx'
        subst he
        exact ⟨creditWallet_noFaults_wtx d tx _, creditWallet_noFaults_notifications d tx _,
          fun hlen => creditWallet_noFaults_balance d tx _ hlen⟩
    · have hpProp : ¬ (tx.purpose = "other" ∨ tx.purpose = "wallet_topup") := by
        simpa [Bool.or_eq_true, beq_iff_eq] using hp
      rw [if_neg hp]
      refine ⟨?_, ?_, ?_⟩
      · simp only [ne_eq, not_true_eq_false, false_iff]
        rintro ⟨tx', htx', hp'⟩
        have he := Option.some.inj htx'
        subst he
        exact hpProp hp'
      · simp only [ne_eq, not_true_eq_false, false_iff]
        rintro ⟨tx', htx', hp'⟩
        have he := Option.some.inj htx'
        subst he
        exact hpProp hp'
      · rintro tx' htx' hp'
        have he := Option.some.inj htx'
        subst he
        exact absurd hp' hpProp

/-- Witness for `c5_amended_credit_iff` at a concrete wallet top-up. -/
theorem c5_amended_credit_iff_witness :
    ((processChargeSuccess noFaults (mkCharge "r1" 100 "card" "t" "")
      ⟨[mkTx "r1" "u1" "wallet_topup" 100 "pending"],
        [⟨"u1", 0⟩], [], []⟩).wallet_transactions ≠ ([] : List WalletTx) ↔
      ∃ tx, selectSingle (fun t => t.checkout_request_id == "r1")
          [mkTx "r1" "u1" "wallet_topup" 100 "pending"] = some tx ∧
        (tx.purpose = "other" ∨ tx.purpose = "wallet_topup")) :=
  (c5_amended_credit_iff (mkCharge "r1" 100 "card" "t" "")
    ⟨[mkTx "r1" "u1" "wallet_topup" 100 "pending"], [⟨"u1", 0⟩], [], []⟩ rfl).1

end HelloHappyTune
